import Mathlib

/-!
Verification of the aggregation core of the SiteNudge analytics dashboard
(src/app.py).  The embedding covers `calculate_metrics` (lines 136-158),
`calculate_ab_stats` (lines 160-173), `calc_delta` (lines 175-177), the
period-window table and window filters (lines 292-336), the delta gating of
the engagement cards (lines 466-473), and the A/B lift computation and
winner classification of the dashboard body (lines 847-921).

Numbers are modelled as rationals; timestamps as rational seconds since the
Unix epoch (UTC).  Two embeddings of `calculate_metrics` are given:

* `calculate_metrics` over `List Record` embeds the function under the
  Session Record schema of the data model, where the engagement columns
  `time_on_site_sec` and `scroll_depth_pct` are present in the frame.  In
  that case every pandas Series built by the function carries the frame
  index, so boolean-mask alignment is the identity and the function is a
  pure fold over the rows.

* `calculate_metrics_frame` over `Frame` drops that assumption and
  additionally models the pandas behaviours the source relies on when a
  column is absent: `df.get(col, pd.Series([0]))` returning a length-one
  default series with index `[0]`, elementwise comparisons preserving the
  index, logical `|` / `&` aligning on the union of the two indexes with
  missing entries treated as False, and `df[mask]` raising
  `IndexingError` when some row label of the frame is missing from the
  mask index (pandas `check_bool_indexer`).
-/

/-- One session row of the `session_sessions` table, restricted to the
fields the aggregation core reads.  `variant` holds the value of the
variant column selected by the caller of `calculate_ab_stats`
(`hero_variant`, `social_proof_variant` or `scroll_hook_variant`); `none`
models SQL null / NaN, which `Series.dropna` removes and which compares
unequal to every label. -/
structure Record where
  started_at : ℚ
  time_on_site_sec : ℚ
  scroll_depth_pct : ℚ
  clicks_total : ℚ
  clicked_buy : ℚ
  initiated_checkout : ℚ
  purchased : ℚ
  variant : Option String
  deriving DecidableEq

/-- The dictionary returned by `calculate_metrics` (src/app.py lines
138-139 and 148-158). -/
structure PeriodMetrics where
  sessions : ℕ
  median_time : ℚ
  median_scroll : ℚ
  total_clicks : ℚ
  clicked_buy : ℚ
  initiated_checkout : ℚ
  purchased : ℚ
  bounce_rate : ℚ
  engaged_sessions : ℕ
  deriving DecidableEq

/-- Insert a value into an ascending-sorted list of rationals. -/
def insertSorted (x : ℚ) : List ℚ → List ℚ
  | [] => [x]
  | y :: ys => if x ≤ y then x :: y :: ys else y :: insertSorted x ys

/-- Ascending insertion sort on rationals. -/
def sortRat (l : List ℚ) : List ℚ := l.foldr insertSorted []

/-- Median as computed by pandas `Series.median` on a series without
nulls: sort ascending, take the middle element for odd length and the mean
of the two middle elements for even length (0 on the empty list, which the
source never reaches because it guards with a length check). -/
def medianRat (l : List ℚ) : ℚ :=
  if l.length % 2 = 1 then (sortRat l).getD (l.length / 2) 0
  else ((sortRat l).getD (l.length / 2 - 1) 0 + (sortRat l).getD (l.length / 2) 0) / 2

/-- `calculate_metrics` (src/app.py lines 136-158) under the Session
Record schema, where all columns are present.  Line by line:
`if df.empty: return zeros` (137-139); `valid_time` keeps
`0 < time_on_site_sec <= 1800` (141-142); `valid_scroll` keeps
`scroll_depth_pct > 0` (143-144); `bounces` counts
`time == 0 or scroll == 0` (145); `engaged` counts
`time > 10 and scroll > 25` (146); the returned dictionary (148-158)
takes medians of the valid subsets when non-empty (else 0), sums the four
counters, and sets `bounce_rate = bounces / len(df) * 100` guarded by
`len(df) > 0`. -/
def calculate_metrics (l : List Record) : PeriodMetrics :=
  if l.isEmpty then
    { sessions := 0, median_time := 0, median_scroll := 0, total_clicks := 0,
      clicked_buy := 0, initiated_checkout := 0, purchased := 0,
      bounce_rate := 0, engaged_sessions := 0 }
  else
    let time_col := l.map Record.time_on_site_sec
    let valid_time := time_col.filter (fun t => decide (0 < t ∧ t ≤ 1800))
    let scroll_col := l.map Record.scroll_depth_pct
    let valid_scroll := scroll_col.filter (fun s => decide (0 < s))
    let bounces :=
      (l.filter (fun r => decide (r.time_on_site_sec = 0 ∨ r.scroll_depth_pct = 0))).length
    let engaged :=
      (l.filter (fun r => decide (10 < r.time_on_site_sec ∧ 25 < r.scroll_depth_pct))).length
    { sessions := l.length
      median_time := if 0 < valid_time.length then medianRat valid_time else 0
      median_scroll := if 0 < valid_scroll.length then medianRat valid_scroll else 0
      total_clicks := (l.map Record.clicks_total).sum
      clicked_buy := (l.map Record.clicked_buy).sum
      initiated_checkout := (l.map Record.initiated_checkout).sum
      purchased := (l.map Record.purchased).sum
      bounce_rate := if 0 < l.length then (bounces : ℚ) / (l.length : ℚ) * 100 else 0
      engaged_sessions := engaged }

/-- `calc_delta` (src/app.py lines 175-177): `None` when the previous
value is 0, else the percentage change. -/
def calc_delta (current prev : ℚ) : Option ℚ :=
  if prev = 0 then none else some ((current - prev) / prev * 100)

/-- One row of the DataFrame built by `calculate_ab_stats`
(src/app.py lines 168-172). -/
structure ABRow where
  variant : String
  sessions : ℕ
  median_time : ℚ
  median_scroll : ℚ
  clicked_buy : ℚ
  click_rate : ℚ
  bounce_rate : ℚ
  engaged : ℕ
  deriving DecidableEq

/-- The two canonical experiment-arm labels looked up by the dashboard
body (src/app.py lines 853-854). -/
def controlLabel : String := "control"

/-- See `controlLabel`. -/
def testLabel : String := "test"

/-- First-seen deduplication, as computed by pandas `Series.unique`
(order of first occurrence, src/app.py line 164). -/
def uniqueFirstSeen (l : List String) : List String :=
  l.foldl (fun acc a => if a ∈ acc then acc else acc ++ [a]) []

/-- `df[variant_col].dropna().unique()` (src/app.py line 164): the
distinct non-null values of the selected variant column, in order of
first occurrence. -/
def discoveredVariants (l : List Record) : List String :=
  uniqueFirstSeen (l.filterMap Record.variant)

/-- `vdf = df[df[variant_col] == variant]` (src/app.py line 165).  In
pandas a null compares unequal to every label, so rows with a null
variant fall into no group. -/
def variantGroup (l : List Record) (v : String) : List Record :=
  l.filter (fun r => decide (r.variant = some v))

/-- The row appended for one variant by `calculate_ab_stats`
(src/app.py lines 165-172): the metrics of the group together with
`click_rate = clicked_buy / sessions * 100` guarded by `sessions > 0`
(line 167). -/
def abRow (l : List Record) (v : String) : ABRow :=
  let m := calculate_metrics (variantGroup l v)
  { variant := v, sessions := m.sessions, median_time := m.median_time,
    median_scroll := m.median_scroll, clicked_buy := m.clicked_buy,
    click_rate := if 0 < m.sessions then m.clicked_buy / (m.sessions : ℚ) * 100 else 0,
    bounce_rate := m.bounce_rate, engaged := m.engaged_sessions }

/-- The list of rows of the result DataFrame of `calculate_ab_stats`
(src/app.py lines 163-173), one per discovered variant. -/
def abStats (l : List Record) : List ABRow :=
  (discoveredVariants l).map (abRow l)

/-- `calculate_ab_stats` (src/app.py lines 160-173).  `hasVariantCol`
models `variant_col in df.columns`; the guard on line 161-162 returns
`None` when the column is absent or the frame is empty. -/
def calculate_ab_stats (hasVariantCol : Bool) (l : List Record) : Option (List ABRow) :=
  if hasVariantCol = false ∨ l.isEmpty then none
  else some (abStats l)

/-- `stats[stats[..] == v].iloc[0] if v in stats[..].values else None`
(src/app.py lines 853-854): the first stats row carrying the label, or
`none` when the label is absent. -/
def findRow (stats : List ABRow) (v : String) : Option ABRow :=
  stats.find? (fun r => decide (r.variant = v))

/-- The lift expression of the dashboard body (src/app.py line 859):
relative click-rate change of test over control when the control click
rate is positive, else 0. -/
def abLift (control test : ABRow) : ℚ :=
  if 0 < control.click_rate then
    (test.click_rate - control.click_rate) / control.click_rate * 100
  else 0

/-- The three winner callouts of src/app.py lines 916-921. -/
inductive ABOutcome where
  | testWinning
  | controlWinning
  | noClearWinner
  deriving DecidableEq

/-- The winner classification (src/app.py lines 916-921): `lift > 5`
means test winning, `lift < -5` means control winning, anything in the
inclusive band [-5, 5] is no clear winner. -/
def classifyLift (l : ℚ) : ABOutcome :=
  if 5 < l then ABOutcome.testWinning
  else if l < -5 then ABOutcome.controlWinning
  else ABOutcome.noClearWinner

/-- Whether the A/B panel for a variant column is rendered
(src/app.py lines 847-857): skipped when the stats are `None` or have
fewer than two rows (line 850-851) or when either of the labels
`control` / `test` is missing from the discovered variants
(lines 853-857). -/
def panelShown (hasVariantCol : Bool) (l : List Record) : Bool :=
  match calculate_ab_stats hasVariantCol l with
  | none => false
  | some stats =>
    if stats.length < 2 then false
    else
      match findRow stats controlLabel, findRow stats testLabel with
      | some _, some _ => true
      | _, _ => false

/-- One day, in seconds (`timedelta(days=1)`). -/
def daySec : ℚ := 86400

/-- `now.replace(hour=0, minute=0, second=0, microsecond=0)`
(src/app.py line 201): UTC midnight of the day containing `now`. -/
def todayStart (now : ℚ) : ℚ := daySec * (⌊now / daySec⌋ : ℤ)

/-- One entry of the `periods` dictionary (src/app.py lines 292-297):
`(current_start, current_end, prev_start, prev_end)`. -/
structure Windows where
  current_start : ℚ
  current_end : ℚ
  prev_start : ℚ
  prev_end : ℚ
  deriving DecidableEq

/-- The period tokens offered by the radio widget (src/app.py line 214). -/
def todayTok : String := "Today"

/-- See `todayTok`. -/
def last7Tok : String := "Last 7 Days"

/-- See `todayTok`. -/
def last30Tok : String := "Last 30 Days"

/-- See `todayTok`. -/
def allTimeTok : String := "All Time"

/-- The `periods` dictionary (src/app.py lines 292-298) as a function of
the selected token, the current instant and the dataset minimum of
`started_at` (used by the All Time entry, line 296). -/
def periods (period : String) (now dataMin : ℚ) : Windows :=
  if period = "Today" then
    ⟨todayStart now, now, todayStart now - daySec, todayStart now⟩
  else if period = "Last 7 Days" then
    ⟨now - 7 * daySec, now, now - 14 * daySec, now - 7 * daySec⟩
  else if period = "Last 30 Days" then
    ⟨now - 30 * daySec, now, now - 60 * daySec, now - 30 * daySec⟩
  else
    ⟨dataMin, now, dataMin, dataMin⟩

/-- Membership of a `started_at` timestamp in the current window
(src/app.py line 301): `started_at >= current_start` and
`started_at <= current_end` - note the inclusive right end. -/
def inCurrentWindow (w : Windows) (t : ℚ) : Bool :=
  decide (w.current_start ≤ t ∧ t ≤ w.current_end)

/-- Membership of a `started_at` timestamp in the previous window
(src/app.py line 324): `started_at >= prev_start` and
`started_at < prev_end` - half-open. -/
def inPrevWindow (w : Windows) (t : ℚ) : Bool :=
  decide (w.prev_start ≤ t ∧ t < w.prev_end)

/-- `df_all['started_at'].min()` (src/app.py line 296) over the list of
timestamps of the dataset (0 on the empty list, which the dashboard
rules out at lines 192-194). -/
def startedAtMin (ts : List ℚ) : ℚ :=
  match ts with
  | [] => 0
  | t :: rest => rest.foldl min t

/-- The delta gating of the engagement cards (src/app.py lines 466,
469, 472): `calc_delta(cur, prev) if compare and period != "All Time"
else None`. -/
def shownDelta (compare : Bool) (period : String) (current prev : ℚ) : Option ℚ :=
  if compare = true ∧ period ≠ "All Time" then calc_delta current prev else none

/-- A frame row for the column-absence model: the pandas index label of
the row together with the values the row would carry in each numeric
column read by `calculate_metrics`.  When the corresponding `has*` flag
of the `Frame` is false the column is absent from the frame and the
stored value is irrelevant. -/
structure FRow where
  label : ℕ
  time_on_site_sec : ℚ
  scroll_depth_pct : ℚ
  clicks_total : ℚ
  clicked_buy : ℚ
  initiated_checkout : ℚ
  purchased : ℚ
  deriving DecidableEq

/-- A pandas DataFrame as consumed by `calculate_metrics`: a list of
labelled rows plus one presence flag per column accessed through
`df.get`. -/
structure Frame where
  rows : List FRow
  hasTime : Bool
  hasScroll : Bool
  hasClicks : Bool
  hasBuy : Bool
  hasCheckout : Bool
  hasPurchased : Bool
  deriving DecidableEq

/-- A numeric pandas Series: list of (index label, value) pairs. -/
abbrev QSeries := List (ℕ × ℚ)

/-- A boolean pandas Series: list of (index label, value) pairs. -/
abbrev BSeries := List (ℕ × Bool)

/-- `df.get(col, pd.Series([0]))` (src/app.py lines 141, 143, 152-155):
the column with the frame index when present, else the default series
`pd.Series([0])`, which has the single index label 0 and value 0. -/
def colOrDefault (df : Frame) (has : Bool) (f : FRow → ℚ) : QSeries :=
  if has then df.rows.map (fun r => (r.label, f r)) else [(0, 0)]

/-- An elementwise comparison such as `series == 0` or `series > 10`:
the index is preserved. -/
def seriesTest (p : ℚ → Bool) (s : QSeries) : BSeries :=
  s.map (fun x => (x.1, p x.2))

/-- `series[mask]` where the mask was computed from the same series
(src/app.py lines 142, 144): indexes agree, so this is a plain filter on
the values. -/
def seriesFilterVals (p : ℚ → Bool) (s : QSeries) : List ℚ :=
  (s.filter (fun x => p x.2)).map Prod.snd

/-- `series.sum()`. -/
def seriesSum (s : QSeries) : ℚ := (s.map Prod.snd).sum

/-- Value of a boolean series at an index label, `none` when the label
is not in the series index (first match, as for a unique pandas index). -/
def blookup (m : BSeries) (i : ℕ) : Option Bool :=
  (m.find? (fun p => p.1 == i)).map Prod.snd

/-- The union of the index labels of two boolean series.  Pandas sorts
the union; the order is irrelevant to every count computed here, so
first-seen order is used. -/
def unionLabels (a b : BSeries) : List ℕ :=
  (a.map Prod.fst ++ b.map Prod.fst).foldl
    (fun acc i => if i ∈ acc then acc else acc ++ [i]) []

/-- `mask1 | mask2` on boolean series (src/app.py line 145): pandas
aligns the two series on the union of their indexes and treats entries
missing on one side as False. -/
def alignOr (a b : BSeries) : BSeries :=
  (unionLabels a b).map
    (fun i => (i, ((blookup a i).getD false || (blookup b i).getD false)))

/-- `mask1 & mask2` on boolean series (src/app.py line 146), aligned
like `alignOr`. -/
def alignAnd (a b : BSeries) : BSeries :=
  (unionLabels a b).map
    (fun i => (i, ((blookup a i).getD false && (blookup b i).getD false)))

/-- The message of the pandas exception raised by `check_bool_indexer`
when a boolean mask cannot be aligned to the frame index. -/
def indexingErrorMsg : String :=
  "IndexingError: Unalignable boolean Series provided as indexer"

/-- `df[mask]` for a boolean-series mask (src/app.py lines 145-146):
pandas reindexes the mask to the frame index and raises `IndexingError`
if any frame label is missing from the mask index; otherwise it keeps
the rows whose mask value is True. -/
def boolIndex (rows : List FRow) (mask : BSeries) : Except String (List FRow) :=
  if rows.all (fun r => (blookup mask r.label).isSome) then
    Except.ok (rows.filter (fun r => (blookup mask r.label).getD false))
  else
    Except.error indexingErrorMsg

/-- The mask of src/app.py line 145, `(time_col == 0) | (scroll_col == 0)`,
over the `df.get` columns. -/
def bounceMask (df : Frame) : BSeries :=
  alignOr
    (seriesTest (fun t => decide (t = 0)) (colOrDefault df df.hasTime FRow.time_on_site_sec))
    (seriesTest (fun s => decide (s = 0)) (colOrDefault df df.hasScroll FRow.scroll_depth_pct))

/-- The mask of src/app.py line 146, `(time_col > 10) & (scroll_col > 25)`,
over the `df.get` columns. -/
def engagedMask (df : Frame) : BSeries :=
  alignAnd
    (seriesTest (fun t => decide (10 < t)) (colOrDefault df df.hasTime FRow.time_on_site_sec))
    (seriesTest (fun s => decide (25 < s)) (colOrDefault df df.hasScroll FRow.scroll_depth_pct))

/-- The all-zero dictionary returned on empty input
(src/app.py lines 138-139). -/
def allZeroMetrics : PeriodMetrics :=
  { sessions := 0, median_time := 0, median_scroll := 0, total_clicks := 0,
    clicked_buy := 0, initiated_checkout := 0, purchased := 0,
    bounce_rate := 0, engaged_sessions := 0 }

/-- `calculate_metrics` (src/app.py lines 136-158) over a frame whose
columns may be absent, with the pandas `df.get` defaults and boolean
alignment semantics made explicit.  The two `df[...]` selections of
lines 145-146 can raise `IndexingError` (see `boolIndex`), in source
order: line 145 first. -/
def calculate_metrics_frame (df : Frame) : Except String PeriodMetrics :=
  if df.rows.isEmpty then Except.ok allZeroMetrics
  else
    match boolIndex df.rows (bounceMask df) with
    | Except.error e => Except.error e
    | Except.ok bounceRows =>
      match boolIndex df.rows (engagedMask df) with
      | Except.error e => Except.error e
      | Except.ok engagedRows =>
        let valid_time := seriesFilterVals (fun t => decide (0 < t ∧ t ≤ 1800))
          (colOrDefault df df.hasTime FRow.time_on_site_sec)
        let valid_scroll := seriesFilterVals (fun s => decide (0 < s))
          (colOrDefault df df.hasScroll FRow.scroll_depth_pct)
        Except.ok
          { sessions := df.rows.length
            median_time := if 0 < valid_time.length then medianRat valid_time else 0
            median_scroll := if 0 < valid_scroll.length then medianRat valid_scroll else 0
            total_clicks := seriesSum (colOrDefault df df.hasClicks FRow.clicks_total)
            clicked_buy := seriesSum (colOrDefault df df.hasBuy FRow.clicked_buy)
            initiated_checkout := seriesSum (colOrDefault df df.hasCheckout FRow.initiated_checkout)
            purchased := seriesSum (colOrDefault df df.hasPurchased FRow.purchased)
            bounce_rate := if 0 < df.rows.length then
                (bounceRows.length : ℚ) / (df.rows.length : ℚ) * 100
              else 0
            engaged_sessions := engagedRows.length }

/-- Helper for concrete session records: time on site, scroll depth,
clicked_buy and variant; the remaining fields are 0. -/
def mkRec (t s buy : ℚ) (v : Option String) : Record :=
  { started_at := 0, time_on_site_sec := t, scroll_depth_pct := s,
    clicks_total := 0, clicked_buy := buy, initiated_checkout := 0,
    purchased := 0, variant := v }

/-- Scenario 1 of the spec: ten sessions, six with `time_on_site_sec = 0`
and four with times 5, 10, 15, 20 (all with positive scroll depth). -/
def scenario1 : List Record :=
  [mkRec 0 40 0 none, mkRec 0 40 0 none, mkRec 0 40 0 none,
   mkRec 0 40 0 none, mkRec 0 40 0 none, mkRec 0 40 0 none,
   mkRec 5 40 0 none, mkRec 10 40 0 none, mkRec 15 40 0 none,
   mkRec 20 40 0 none]

/-- A record with `time_on_site_sec = 2000`, above the 1800-second cap. -/
def recT2000 : Record := mkRec 2000 50 0 none

/-- A record with an in-range time on site. -/
def recA : Record := mkRec 100 50 0 none

/-- Four sessions split over the two canonical variants: the control arm
has click rate 50, the test arm click rate 100. -/
def abTestList : List Record :=
  [mkRec 20 50 1 (some controlLabel), mkRec 20 50 0 (some controlLabel),
   mkRec 20 50 1 (some testLabel), mkRec 20 50 1 (some testLabel)]

/-- A collection in which only the control label occurs. -/
def oneVariantList : List Record :=
  [mkRec 5 50 0 (some controlLabel)]

/-- A collection with one control-variant record and one record whose
variant value is null. -/
def c10List : List Record :=
  [mkRec 0 0 1 (some controlLabel), mkRec 5 50 1 none]

/-- An empty frame with every column present. -/
def emptyFrame : Frame :=
  { rows := [], hasTime := true, hasScroll := true, hasClicks := true,
    hasBuy := true, hasCheckout := true, hasPurchased := true }

/-- A two-row frame (labels 0 and 1) from which both engagement columns
`time_on_site_sec` and `scroll_depth_pct` are absent. -/
def frameNoEngagementCols2 : Frame :=
  { rows := [⟨0, 0, 0, 3, 1, 0, 0⟩, ⟨1, 0, 0, 2, 0, 1, 1⟩],
    hasTime := false, hasScroll := false, hasClicks := true,
    hasBuy := true, hasCheckout := true, hasPurchased := true }

/-- A three-row frame (labels 0, 1 and 2) from which both engagement
columns are absent. -/
def frameNoEngagementCols3 : Frame :=
  { rows := [⟨0, 0, 0, 1, 0, 0, 0⟩, ⟨1, 0, 0, 1, 1, 0, 0⟩, ⟨2, 0, 0, 0, 0, 0, 0⟩],
    hasTime := false, hasScroll := false, hasClicks := true,
    hasBuy := true, hasCheckout := true, hasPurchased := true }

/-- A one-row frame with all columns present. -/
def goodFrame1 : Frame :=
  { rows := [⟨0, 100, 50, 3, 1, 0, 0⟩],
    hasTime := true, hasScroll := true, hasClicks := true,
    hasBuy := true, hasCheckout := true, hasPurchased := true }

/-- The filtered time column the metrics median is taken over:
`time_on_site_sec` values of the records with `0 < t <= 1800`. -/
def validTimes (l : List Record) : List ℚ :=
  (l.map Record.time_on_site_sec).filter (fun t => decide (0 < t ∧ t ≤ 1800))

theorem calculate_metrics_sessions (l : List Record) :
    (calculate_metrics l).sessions = l.length := by
  unfold calculate_metrics
  split
  · next h => rw [List.isEmpty_iff.mp h]; rfl
  · rfl

theorem calculate_metrics_median_time (l : List Record) :
    (calculate_metrics l).median_time =
      (if 0 < (validTimes l).length then medianRat (validTimes l) else 0) := by
  unfold calculate_metrics
  split
  · next h => rw [List.isEmpty_iff.mp h]; rfl
  · rfl

/-- Claim C1: on a collection with at least one record,
`calculate_metrics` returns `bounce_rate` equal to the count of records
with `time_on_site_sec = 0` or `scroll_depth_pct = 0`, divided by the
number of records, times 100, and `engaged_sessions` equal to the count
of records with `time_on_site_sec > 10` and `scroll_depth_pct > 25`. -/
theorem C1_bounce_rate_engaged (l : List Record) (h : l ≠ []) :
    (calculate_metrics l).bounce_rate =
      ((l.countP (fun r => decide (r.time_on_site_sec = 0 ∨ r.scroll_depth_pct = 0)) : ℚ) /
        (l.length : ℚ)) * 100 ∧
    (calculate_metrics l).engaged_sessions =
      l.countP (fun r => decide (10 < r.time_on_site_sec ∧ 25 < r.scroll_depth_pct)) := by
  have hne : l.isEmpty = false := by
    simpa [List.isEmpty_iff] using h
  have hlen : 0 < l.length := List.length_pos.mpr h
  constructor
  · simp only [calculate_metrics, hne, Bool.false_eq_true, if_false, if_pos hlen,
      List.countP_eq_length_filter]
  · simp only [calculate_metrics, hne, Bool.false_eq_true, if_false,
      List.countP_eq_length_filter]

/-- Witness for C1 at Scenario 1: ten sessions, of which six have
`time_on_site_sec = 0` and the rest positive scroll, give bounce rate 60
and two engaged sessions. -/
theorem C1_witness :
    scenario1 ≠ [] ∧
    (calculate_metrics scenario1).bounce_rate = 60 ∧
    (calculate_metrics scenario1).engaged_sessions = 2 := by
  have h := C1_bounce_rate_engaged scenario1 (by decide)
  refine ⟨by decide, ?_, ?_⟩
  · rw [h.1,
      show (scenario1.countP
        (fun r => decide (r.time_on_site_sec = 0 ∨ r.scroll_depth_pct = 0))) = 6 by decide,
      show scenario1.length = 10 from rfl]
    norm_num
  · rw [h.2]; decide

/-- Claim C3: `median_time` is the median of `time_on_site_sec`
restricted to records with `0 < t <= 1800` (0 when that subset is
empty), and inserting a record with `time_on_site_sec = 2000` anywhere
into a collection never changes `median_time`. -/
theorem C3_median_time (l l1 l2 : List Record) (r : Record)
    (h : r.time_on_site_sec = 2000) :
    (calculate_metrics l).median_time =
      (if 0 < (validTimes l).length then medianRat (validTimes l) else 0) ∧
    (calculate_metrics (l1 ++ r :: l2)).median_time =
      (calculate_metrics (l1 ++ l2)).median_time := by
  refine ⟨calculate_metrics_median_time l, ?_⟩
  have hval : validTimes (l1 ++ r :: l2) = validTimes (l1 ++ l2) := by
    simp only [validTimes, List.map_append, List.map_cons, List.filter_append,
      List.filter_cons, h]
    norm_num
  rw [calculate_metrics_median_time, calculate_metrics_median_time, hval]

/-- Witness for C3: appending a 2000-second record to a singleton
collection leaves the median time at 100. -/
theorem C3_witness :
    recT2000.time_on_site_sec = 2000 ∧
    (calculate_metrics ([recA] ++ recT2000 :: [])).median_time =
      (calculate_metrics ([recA] ++ [])).median_time ∧
    (calculate_metrics ([recA] ++ [])).median_time = 100 := by
  have h := C3_median_time [] [recA] [] recT2000 (by decide)
  exact ⟨by decide, h.2, by decide⟩

/-- Claim C4: `calc_delta` is `None` exactly when the previous value is
0; otherwise it equals `(current - previous) / previous * 100`, and in
particular `calc_delta x x = 0` for every nonzero `x`. -/
theorem C4_calc_delta (current prev : ℚ) :
    (calc_delta current prev = none ↔ prev = 0) ∧
    (prev ≠ 0 → calc_delta current prev = some ((current - prev) / prev * 100)) ∧
    (prev ≠ 0 → calc_delta prev prev = some 0) := by
  refine ⟨?_, ?_, ?_⟩
  · by_cases h : prev = 0 <;> simp [calc_delta, h]
  · intro h; simp [calc_delta, h]
  · intro h; simp [calc_delta, h]

/-- Witness for C4: `calc_delta 3 3 = some 0` and `calc_delta 7 0 = none`. -/
theorem C4_witness :
    (3 : ℚ) ≠ 0 ∧ calc_delta 3 3 = some 0 ∧ calc_delta 7 0 = none := by
  refine ⟨by norm_num, (C4_calc_delta 3 3).2.2 (by norm_num), ?_⟩
  exact (C4_calc_delta 7 0).1.mpr rfl

theorem mem_foldl_dedup (xs : List String) (acc : List String) (a : String) :
    a ∈ xs.foldl (fun acc b => if b ∈ acc then acc else acc ++ [b]) acc ↔
      a ∈ acc ∨ a ∈ xs := by
  induction xs generalizing acc with
  | nil => simp
  | cons x xs ih =>
    simp only [List.foldl_cons]
    by_cases hx : x ∈ acc
    · rw [if_pos hx, ih]
      constructor
      · rintro (h | h)
        · exact Or.inl h
        · exact Or.inr (List.mem_cons_of_mem x h)
      · rintro (h | h)
        · exact Or.inl h
        · rcases List.mem_cons.mp h with rfl | h2
          · exact Or.inl hx
          · exact Or.inr h2
    · rw [if_neg hx, ih]
      simp only [List.mem_append, List.mem_singleton, List.mem_cons]
      tauto

theorem mem_uniqueFirstSeen (xs : List String) (a : String) :
    a ∈ uniqueFirstSeen xs ↔ a ∈ xs := by
  unfold uniqueFirstSeen
  rw [mem_foldl_dedup]
  simp

theorem find?_eq_self_of_mem (xs : List String) (v : String) (h : v ∈ xs) :
    xs.find? (fun x => decide (x = v)) = some v := by
  induction xs with
  | nil => cases h
  | cons x xs ih =>
    by_cases hx : x = v
    · subst hx
      exact List.find?_cons_of_pos _ (by simp)
    · rcases List.mem_cons.mp h with rfl | h2
      · exact absurd rfl hx
      · rw [List.find?_cons_of_neg _ (by simpa using hx)]
        exact ih h2

theorem abRow_variant (l : List Record) (v : String) : (abRow l v).variant = v := rfl

theorem abRow_sessions (l : List Record) (v : String) :
    (abRow l v).sessions = (calculate_metrics (variantGroup l v)).sessions := rfl

theorem abRow_clicked_buy (l : List Record) (v : String) :
    (abRow l v).clicked_buy = (calculate_metrics (variantGroup l v)).clicked_buy := rfl

theorem abRow_click_rate (l : List Record) (v : String) :
    (abRow l v).click_rate =
      if 0 < (calculate_metrics (variantGroup l v)).sessions then
        (calculate_metrics (variantGroup l v)).clicked_buy /
          ((calculate_metrics (variantGroup l v)).sessions : ℚ) * 100
      else 0 := rfl

theorem calculate_metrics_clicked_buy (l : List Record) :
    (calculate_metrics l).clicked_buy = (l.map Record.clicked_buy).sum := by
  unfold calculate_metrics
  split
  · next h => rw [List.isEmpty_iff.mp h]; rfl
  · rfl

theorem findRow_abStats_of_mem (l : List Record) (v : String)
    (hv : v ∈ discoveredVariants l) :
    findRow (abStats l) v = some (abRow l v) := by
  unfold findRow abStats
  rw [List.find?_map]
  have hcomp : ((fun r : ABRow => decide (r.variant = v)) ∘ abRow l) =
      fun w => decide (w = v) := by
    funext w
    simp [abRow_variant]
  rw [hcomp, find?_eq_self_of_mem _ _ hv]
  rfl

theorem findRow_abStats_some (l : List Record) (v : String) (row : ABRow)
    (h : findRow (abStats l) v = some row) :
    v ∈ discoveredVariants l ∧ row = abRow l v := by
  have hmem := List.mem_of_find?_eq_some h
  have hp := List.find?_some h
  have hv : row.variant = v := of_decide_eq_true hp
  obtain ⟨w, hw, hwe⟩ := List.mem_map.mp hmem
  rw [← hwe] at hv
  rw [abRow_variant] at hv
  subst hv
  exact ⟨hw, hwe.symm⟩

theorem calculate_ab_stats_eq (hasCol : Bool) (l : List Record) (stats : List ABRow)
    (h : calculate_ab_stats hasCol l = some stats) : stats = abStats l := by
  unfold calculate_ab_stats at h
  split at h
  · cases h
  · exact (Option.some.inj h).symm

theorem panelShown_true_mem (hasCol : Bool) (l : List Record)
    (h : panelShown hasCol l = true) :
    controlLabel ∈ discoveredVariants l ∧ testLabel ∈ discoveredVariants l := by
  rcases hcs : calculate_ab_stats hasCol l with _ | stats
  · unfold panelShown at h
    rw [hcs] at h
    cases h
  · have hst := calculate_ab_stats_eq hasCol l stats hcs
    subst hst
    simp only [panelShown, hcs] at h
    split at h
    · cases h
    · rcases hc : findRow (abStats l) controlLabel with _ | c <;>
        rcases ht : findRow (abStats l) testLabel with _ | t <;>
          rw [hc, ht] at h
      · simp at h
      · simp at h
      · simp at h
      · exact ⟨(findRow_abStats_some l controlLabel c hc).1,
          (findRow_abStats_some l testLabel t ht).1⟩

theorem panelShown_lt2 (hasCol : Bool) (l : List Record)
    (h2 : (discoveredVariants l).length < 2) : panelShown hasCol l = false := by
  rcases hcs : calculate_ab_stats hasCol l with _ | stats
  · unfold panelShown
    rw [hcs]
  · have hst := calculate_ab_stats_eq hasCol l stats hcs
    subst hst
    simp only [panelShown, hcs]
    rw [if_pos (by simpa [abStats] using h2)]

/-- Claim C6: `calculate_ab_stats` returns `None` exactly when the
variant column is absent or the input is empty, and the A/B panel is
skipped (no lift computed) unless both the labels `control` and `test`
occur among the variants discovered in the data; with fewer than two
variants it is skipped as well. -/
theorem C6_none_and_insufficient (hasCol : Bool) (l : List Record) :
    (calculate_ab_stats hasCol l = none ↔ (hasCol = false ∨ l = [])) ∧
    (panelShown hasCol l = true →
      controlLabel ∈ discoveredVariants l ∧ testLabel ∈ discoveredVariants l) ∧
    (¬(controlLabel ∈ discoveredVariants l ∧ testLabel ∈ discoveredVariants l) →
      panelShown hasCol l = false) ∧
    ((discoveredVariants l).length < 2 → panelShown hasCol l = false) := by
  refine ⟨?_, panelShown_true_mem hasCol l, ?_, panelShown_lt2 hasCol l⟩
  · constructor
    · intro h
      unfold calculate_ab_stats at h
      split at h
      · next hcond =>
        rcases hcond with h1 | h1
        · exact Or.inl h1
        · exact Or.inr (List.isEmpty_iff.mp h1)
      · cases h
    · intro h
      have hcond : hasCol = false ∨ l.isEmpty := by
        rcases h with h1 | h1
        · exact Or.inl h1
        · exact Or.inr (by simp [List.isEmpty_iff, h1])
      unfold calculate_ab_stats
      rw [if_pos hcond]
  · intro hnot
    cases hps : panelShown hasCol l
    · rfl
    · exact absurd (panelShown_true_mem hasCol l hps) hnot

/-- Witness for C6: the empty collection gives `None`, and a collection
in which only the control label occurs has its panel skipped. -/
theorem C6_witness :
    calculate_ab_stats true ([] : List Record) = none ∧
    panelShown true oneVariantList = false := by
  refine ⟨(C6_none_and_insufficient true []).1.mpr (Or.inr rfl),
    (C6_none_and_insufficient true oneVariantList).2.2.1 ?_⟩
  intro h
  exact absurd h.2 (by decide)

theorem variantGroup_ne_nil (l : List Record) (v : String)
    (hv : v ∈ discoveredVariants l) : variantGroup l v ≠ [] := by
  unfold discoveredVariants at hv
  have hvm : v ∈ l.filterMap Record.variant := (mem_uniqueFirstSeen _ _).mp hv
  obtain ⟨r, hr, hrv⟩ := List.mem_filterMap.mp hvm
  intro hnil
  have hrg : r ∈ variantGroup l v := by
    unfold variantGroup
    exact List.mem_filter.mpr ⟨hr, by simp [hrv]⟩
  rw [hnil] at hrg
  cases hrg

/-- Claim C10: every row of the `calculate_ab_stats` result is keyed by
a non-null variant value discovered in the data, its group excludes all
records with a null variant, its session count is at least 1 (so the
`sessions == 0` guard of the click-rate computation is unreachable), and
its click rate equals `clicked_buy / sessions * 100`. -/
theorem C10_stats_rows (hasCol : Bool) (l : List Record) (stats : List ABRow)
    (h : calculate_ab_stats hasCol l = some stats) :
    ∀ row ∈ stats,
      row.variant ∈ discoveredVariants l ∧
      1 ≤ row.sessions ∧
      row.click_rate = row.clicked_buy / (row.sessions : ℚ) * 100 ∧
      ∀ r ∈ variantGroup l row.variant, r.variant ≠ none := by
  intro row hrow
  have hst := calculate_ab_stats_eq hasCol l stats h
  subst hst
  obtain ⟨v, hv, hveq⟩ := List.mem_map.mp hrow
  subst hveq
  have hne := variantGroup_ne_nil l v hv
  have hpos : 0 < (calculate_metrics (variantGroup l v)).sessions := by
    rw [calculate_metrics_sessions]
    exact List.length_pos.mpr hne
  refine ⟨?_, ?_, ?_, ?_⟩
  · rw [abRow_variant]; exact hv
  · rw [abRow_sessions]; exact hpos
  · rw [abRow_click_rate, abRow_sessions, abRow_clicked_buy, if_pos hpos]
  · intro r hr
    rw [abRow_variant] at hr
    simp only [variantGroup, List.mem_filter] at hr
    have h2 : r.variant = some v := of_decide_eq_true hr.2
    rw [h2]
    exact Option.some_ne_none _

/-- Witness for C10: on a collection with one control record and one
null-variant record, the single stats row is the control row, with one
session and click rate `clicked_buy / sessions * 100`. -/
theorem C10_witness :
    abStats c10List = [abRow c10List controlLabel] ∧
    1 ≤ (abRow c10List controlLabel).sessions ∧
    (abRow c10List controlLabel).click_rate =
      (abRow c10List controlLabel).clicked_buy /
        ((abRow c10List controlLabel).sessions : ℚ) * 100 := by
  have heq : abStats c10List = [abRow c10List controlLabel] := by
    unfold abStats
    rw [show discoveredVariants c10List = [controlLabel] from rfl]
    rfl
  have hmem : abRow c10List controlLabel ∈ abStats c10List := by
    rw [heq]; exact List.mem_singleton_self _
  have h := C10_stats_rows true c10List (abStats c10List) rfl
    (abRow c10List controlLabel) hmem
  exact ⟨heq, h.2.1, h.2.2.1⟩

/-- Claim C5: when both canonical labels occur among the discovered
variants (so the dashboard row lookups succeed), the lift equals
`(test.click_rate - control.click_rate) / control.click_rate * 100` when
the control click rate is positive and 0 otherwise, and the outcome is
test winning iff `lift > 5`, control winning iff `lift < -5`, and no
clear winner on the whole inclusive band [-5, 5]. -/
theorem C5_lift_classification (l : List Record) (c t : ABRow)
    (hc : findRow (abStats l) controlLabel = some c)
    (ht : findRow (abStats l) testLabel = some t) :
    (0 < c.click_rate →
      abLift c t = (t.click_rate - c.click_rate) / c.click_rate * 100) ∧
    (¬0 < c.click_rate → abLift c t = 0) ∧
    (classifyLift (abLift c t) = ABOutcome.testWinning ↔ 5 < abLift c t) ∧
    (classifyLift (abLift c t) = ABOutcome.controlWinning ↔ abLift c t < -5) ∧
    (-5 ≤ abLift c t → abLift c t ≤ 5 →
      classifyLift (abLift c t) = ABOutcome.noClearWinner) := by
  refine ⟨fun h => by rw [abLift, if_pos h], fun h => by rw [abLift, if_neg h],
    ?_, ?_, fun h1 h2 => ?_⟩
  · unfold classifyLift
    split_ifs with h1 h2
    · simp [h1]
    · constructor
      · intro hh; cases hh
      · intro hh; exact absurd hh h1
    · constructor
      · intro hh; cases hh
      · intro hh; exact absurd hh h1
  · unfold classifyLift
    split_ifs with h1 h2
    · constructor
      · intro hh; cases hh
      · intro hh; linarith
    · simp [h2]
    · constructor
      · intro hh; cases hh
      · intro hh; exact absurd hh h2
  · unfold classifyLift
    split_ifs with ha hb
    · linarith
    · linarith
    · rfl

/-- Witness for C5 at a concrete experiment: control click rate 50, test
click rate 100, lift 100, classified test winning. -/
theorem C5_witness :
    findRow (abStats abTestList) controlLabel = some (abRow abTestList controlLabel) ∧
    findRow (abStats abTestList) testLabel = some (abRow abTestList testLabel) ∧
    abLift (abRow abTestList controlLabel) (abRow abTestList testLabel) = 100 ∧
    classifyLift (abLift (abRow abTestList controlLabel) (abRow abTestList testLabel)) =
      ABOutcome.testWinning := by
  have hfc : findRow (abStats abTestList) controlLabel =
      some (abRow abTestList controlLabel) :=
    findRow_abStats_of_mem abTestList controlLabel (by decide)
  have hft : findRow (abStats abTestList) testLabel =
      some (abRow abTestList testLabel) :=
    findRow_abStats_of_mem abTestList testLabel (by decide)
  have h := C5_lift_classification abTestList (abRow abTestList controlLabel)
    (abRow abTestList testLabel) hfc hft
  have hcrate : (abRow abTestList controlLabel).click_rate = 50 := by
    rw [abRow_click_rate, calculate_metrics_sessions, calculate_metrics_clicked_buy,
      show variantGroup abTestList controlLabel =
        [mkRec 20 50 1 (some controlLabel), mkRec 20 50 0 (some controlLabel)] from rfl]
    norm_num [mkRec]
  have htrate : (abRow abTestList testLabel).click_rate = 100 := by
    rw [abRow_click_rate, calculate_metrics_sessions, calculate_metrics_clicked_buy,
      show variantGroup abTestList testLabel =
        [mkRec 20 50 1 (some testLabel), mkRec 20 50 1 (some testLabel)] from rfl]
    norm_num [mkRec]
  have hlift : abLift (abRow abTestList controlLabel) (abRow abTestList testLabel) = 100 := by
    rw [h.1 (by rw [hcrate]; norm_num), hcrate, htrate]
    norm_num
  exact ⟨hfc, hft, hlift, h.2.2.1.mpr (by rw [hlift]; norm_num)⟩

theorem periods_today (now dataMin : ℚ) :
    periods todayTok now dataMin =
      ⟨todayStart now, now, todayStart now - daySec, todayStart now⟩ := rfl

theorem periods_last7 (now dataMin : ℚ) :
    periods last7Tok now dataMin =
      ⟨now - 7 * daySec, now, now - 14 * daySec, now - 7 * daySec⟩ := rfl

theorem periods_last30 (now dataMin : ℚ) :
    periods last30Tok now dataMin =
      ⟨now - 30 * daySec, now, now - 60 * daySec, now - 30 * daySec⟩ := rfl

theorem periods_allTime (now dataMin : ℚ) :
    periods allTimeTok now dataMin = ⟨dataMin, now, dataMin, dataMin⟩ := rfl

theorem inCurrentWindow_iff (w : Windows) (t : ℚ) :
    inCurrentWindow w t = true ↔ (w.current_start ≤ t ∧ t ≤ w.current_end) := by
  simp [inCurrentWindow]

theorem inPrevWindow_iff (w : Windows) (t : ℚ) :
    inPrevWindow w t = true ↔ (w.prev_start ≤ t ∧ t < w.prev_end) := by
  simp [inPrevWindow]

theorem todayStart_le (now : ℚ) : todayStart now ≤ now := by
  unfold todayStart daySec
  have h1 : (⌊now / 86400⌋ : ℚ) ≤ now / 86400 := Int.floor_le (now / 86400)
  have h2 : (86400 : ℚ) * (⌊now / 86400⌋ : ℚ) ≤ 86400 * (now / 86400) :=
    mul_le_mul_of_nonneg_left h1 (by norm_num)
  have h3 : (86400 : ℚ) * (now / 86400) = now := by field_simp
  linarith

/-- Counterexample for claim C7: the current window is NOT half-open - a
record whose `started_at` equals `current_end` is included (line 301 of
src/app.py filters with an inclusive `<=`); moreover for the token Today
the previous window (one full calendar day) does not have the same length
as the current window (midnight to `now`). -/
theorem C7_counterexample :
    inCurrentWindow (periods last7Tok 1000000 0) 1000000 = true ∧
    (periods last7Tok 1000000 0).current_end = 1000000 ∧
    (periods todayTok 3600 0).current_end - (periods todayTok 3600 0).current_start = 3600 ∧
    (periods todayTok 3600 0).prev_end - (periods todayTok 3600 0).prev_start = 86400 ∧
    (3600 : ℚ) ≠ 86400 := by
  refine ⟨?_, ?_, ?_, ?_, by norm_num⟩
  · rw [periods_last7]
    rw [inCurrentWindow_iff]
    constructor
    · norm_num [daySec]
    · norm_num
  · rw [periods_last7]
  · rw [periods_today]
    show (3600 : ℚ) - todayStart 3600 = 3600
    rw [show todayStart 3600 = 0 from by norm_num [todayStart, daySec]]
    norm_num
  · rw [periods_today]
    show todayStart 3600 - (todayStart 3600 - daySec) = 86400
    rw [sub_sub_cancel]
    norm_num [daySec]

/-- Claim C7, amended: for Last 7 Days and Last 30 Days the previous
window is the immediately preceding half-open window of the same length
as the current window, but the current window is a CLOSED interval
`[start, end]` - a record with `started_at` equal to `current_end` is
included; for Today the previous window is the immediately preceding
full calendar day (length one day), which in general differs from the
length of the current window (midnight to now). -/
theorem C7_amended_windows (now dataMin t : ℚ) :
    ((periods last7Tok now dataMin).prev_end = (periods last7Tok now dataMin).current_start ∧
     (periods last7Tok now dataMin).current_end - (periods last7Tok now dataMin).current_start =
       (periods last7Tok now dataMin).prev_end - (periods last7Tok now dataMin).prev_start ∧
     (inPrevWindow (periods last7Tok now dataMin) t = true ↔
       ((periods last7Tok now dataMin).prev_start ≤ t ∧
         t < (periods last7Tok now dataMin).prev_end)) ∧
     (inCurrentWindow (periods last7Tok now dataMin) t = true ↔
       ((periods last7Tok now dataMin).current_start ≤ t ∧
         t ≤ (periods last7Tok now dataMin).current_end)) ∧
     inCurrentWindow (periods last7Tok now dataMin)
       (periods last7Tok now dataMin).current_end = true) ∧
    ((periods last30Tok now dataMin).prev_end = (periods last30Tok now dataMin).current_start ∧
     (periods last30Tok now dataMin).current_end - (periods last30Tok now dataMin).current_start =
       (periods last30Tok now dataMin).prev_end - (periods last30Tok now dataMin).prev_start ∧
     inCurrentWindow (periods last30Tok now dataMin)
       (periods last30Tok now dataMin).current_end = true) ∧
    ((periods todayTok now dataMin).prev_end = (periods todayTok now dataMin).current_start ∧
     (periods todayTok now dataMin).current_start = todayStart now ∧
     (periods todayTok now dataMin).current_end = now ∧
     (periods todayTok now dataMin).prev_end - (periods todayTok now dataMin).prev_start =
       daySec ∧
     inCurrentWindow (periods todayTok now dataMin)
       (periods todayTok now dataMin).current_end = true) := by
  refine ⟨⟨?_, ?_, inPrevWindow_iff _ _, inCurrentWindow_iff _ _, ?_⟩,
    ⟨?_, ?_, ?_⟩, ⟨?_, ?_, ?_, ?_, ?_⟩⟩
  · rw [periods_last7]
  · rw [periods_last7]; ring
  · rw [periods_last7, inCurrentWindow_iff]
    refine ⟨?_, le_refl _⟩
    show now - 7 * daySec ≤ now
    norm_num [daySec]
  · rw [periods_last30]
  · rw [periods_last30]; ring
  · rw [periods_last30, inCurrentWindow_iff]
    refine ⟨?_, le_refl _⟩
    show now - 30 * daySec ≤ now
    norm_num [daySec]
  · rw [periods_today]
  · rw [periods_today]
  · rw [periods_today]
  · rw [periods_today]
    show todayStart now - (todayStart now - daySec) = daySec
    rw [sub_sub_cancel]
  · rw [periods_today, inCurrentWindow_iff]
    exact ⟨todayStart_le now, le_refl _⟩

/-- Witness for the amended C7: a record strictly inside the previous
Last-7-Days window is accepted by the half-open previous filter. -/
theorem C7_amended_witness :
    inPrevWindow (periods last7Tok 1000001 0) 300000 = true := by
  have h := C7_amended_windows 1000001 0 300000
  refine (h.1.2.2.1).mpr ?_
  rw [periods_last7]
  constructor
  · show (1000001 : ℚ) - 14 * daySec ≤ 300000
    norm_num [daySec]
  · show (300000 : ℚ) < 1000001 - 7 * daySec
    norm_num [daySec]

theorem foldl_min_le_init (l : List ℚ) (a : ℚ) : l.foldl min a ≤ a := by
  induction l generalizing a with
  | nil => exact le_refl a
  | cons x xs ih => exact le_trans (ih (min a x)) (min_le_left a x)

theorem foldl_min_le_mem (l : List ℚ) (a t : ℚ) (ht : t ∈ l) : l.foldl min a ≤ t := by
  induction l generalizing a with
  | nil => cases ht
  | cons x xs ih =>
    rcases List.mem_cons.mp ht with rfl | h2
    · exact le_trans (foldl_min_le_init xs (min a t)) (min_le_right a t)
    · exact ih (min a x) h2

theorem foldl_min_mem (l : List ℚ) (a : ℚ) : l.foldl min a = a ∨ l.foldl min a ∈ l := by
  induction l generalizing a with
  | nil => exact Or.inl rfl
  | cons x xs ih =>
    rcases ih (min a x) with h | h
    · rcases le_total a x with hax | hxa
      · exact Or.inl (by rw [List.foldl_cons, h, min_eq_left hax])
      · refine Or.inr ?_
        rw [List.foldl_cons, h, min_eq_right hxa]
        exact List.mem_cons_self x xs
    · exact Or.inr (List.mem_cons_of_mem x (by rw [List.foldl_cons]; exact h))

theorem startedAtMin_mem (ts : List ℚ) (h : ts ≠ []) : startedAtMin ts ∈ ts := by
  match ts with
  | [] => exact absurd rfl h
  | t :: rest =>
    show List.foldl min t rest ∈ t :: rest
    rcases foldl_min_mem rest t with h1 | h1
    · rw [h1]; exact List.mem_cons_self t rest
    · exact List.mem_cons_of_mem t h1

theorem startedAtMin_le (ts : List ℚ) (t : ℚ) (ht : t ∈ ts) : startedAtMin ts ≤ t := by
  match ts with
  | [] => cases ht
  | u :: rest =>
    show List.foldl min u rest ≤ t
    rcases List.mem_cons.mp ht with rfl | h2
    · exact foldl_min_le_init rest t
    · exact foldl_min_le_mem rest u t h2

/-- Claim C8: for the All Time period the current window starts at the
dataset minimum of `started_at` (which the embedding proves is a member
of and a lower bound of the timestamp list), and comparison is disabled:
the gated delta of every engagement card is `None`, whatever the current
and previous metric values are. -/
theorem C8_alltime_no_comparison (compare : Bool) (now current prev : ℚ)
    (ts : List ℚ) (h : ts ≠ []) :
    (periods allTimeTok now (startedAtMin ts)).current_start = startedAtMin ts ∧
    startedAtMin ts ∈ ts ∧
    (∀ t ∈ ts, startedAtMin ts ≤ t) ∧
    shownDelta compare allTimeTok current prev = none := by
  refine ⟨by rw [periods_allTime], startedAtMin_mem ts h,
    fun t ht => startedAtMin_le ts t ht, ?_⟩
  unfold shownDelta
  rw [if_neg]
  rintro ⟨-, hne⟩
  exact hne rfl

/-- Witness for C8: with timestamps [5, 3, 9] the All Time window starts
at the minimum and the gated delta is `None` even for differing inputs. -/
theorem C8_witness :
    shownDelta true allTimeTok 42 7 = none ∧
    startedAtMin [5, 3, 9] ∈ ([5, 3, 9] : List ℚ) := by
  have h := C8_alltime_no_comparison true 0 42 7 [5, 3, 9] (by simp)
  exact ⟨h.2.2.2, h.2.1⟩

theorem boolIndex_ok (rows : List FRow) (mask : BSeries) (br : List FRow)
    (h : boolIndex rows mask = Except.ok br) :
    br = rows.filter (fun r => (blookup mask r.label).getD false) := by
  unfold boolIndex at h
  split at h
  · exact (Except.ok.inj h).symm
  · cases h

/-- Claim C2 (code bug): on the empty frame and on the empty record
collection `calculate_metrics` returns the all-zero `PeriodMetrics`
without failing, but it is NOT failure-free on every input: on a two-row
frame from which both engagement columns are absent, the boolean mask of
line 145 (built from the length-one `df.get` default series) cannot be
aligned to the frame index and pandas raises `IndexingError`. -/
theorem C2_empty_zero_but_failure :
    calculate_metrics_frame emptyFrame = Except.ok allZeroMetrics ∧
    calculate_metrics ([] : List Record) = allZeroMetrics ∧
    calculate_metrics_frame frameNoEngagementCols2 = Except.error indexingErrorMsg := by
  exact ⟨rfl, rfl, rfl⟩

/-- Claim C9 (code bug): whenever `calculate_metrics` does return a
metrics dictionary, `bounce_rate` lies in [0, 100] and
`engaged_sessions <= sessions`; but on a non-empty collection from which
both engagement columns are absent (three rows here) the function does
not return at all - the line-145 selection raises `IndexingError`. -/
theorem C9_invariant_or_failure :
    (∀ (df : Frame) (m : PeriodMetrics), calculate_metrics_frame df = Except.ok m →
      0 ≤ m.bounce_rate ∧ m.bounce_rate ≤ 100 ∧ m.engaged_sessions ≤ m.sessions) ∧
    calculate_metrics_frame frameNoEngagementCols3 = Except.error indexingErrorMsg := by
  refine ⟨?_, rfl⟩
  intro df m h
  unfold calculate_metrics_frame at h
  split at h
  · have hm := Except.ok.inj h
    subst hm
    norm_num [allZeroMetrics]
  · rcases hb : boolIndex df.rows (bounceMask df) with e | bounceRows <;> rw [hb] at h
    · cases h
    · rcases he : boolIndex df.rows (engagedMask df) with e | engagedRows <;> rw [he] at h
      · cases h
      · have hm := Except.ok.inj h
        subst hm
        have hble : bounceRows.length ≤ df.rows.length := by
          rw [boolIndex_ok df.rows (bounceMask df) bounceRows hb]
          exact List.length_filter_le _ _
        have hele : engagedRows.length ≤ df.rows.length := by
          rw [boolIndex_ok df.rows (engagedMask df) engagedRows he]
          exact List.length_filter_le _ _
        refine ⟨?_, ?_, ?_⟩
        · show (0 : ℚ) ≤ if 0 < df.rows.length then
            (bounceRows.length : ℚ) / (df.rows.length : ℚ) * 100 else 0
          split
          · positivity
          · exact le_refl 0
        · show (if 0 < df.rows.length then
              (bounceRows.length : ℚ) / (df.rows.length : ℚ) * 100 else 0) ≤ 100
          split
          · next hlen =>
            have hc : (bounceRows.length : ℚ) ≤ (df.rows.length : ℚ) := by
              exact_mod_cast hble
            have hlpos : (0 : ℚ) < (df.rows.length : ℚ) := by exact_mod_cast hlen
            rw [div_mul_eq_mul_div, div_le_iff₀ hlpos]
            nlinarith
          · norm_num
        · exact hele

/-- Witness for C9: instantiating the returned-metrics invariant at the
empty frame. -/
theorem C9_witness :
    calculate_metrics_frame emptyFrame = Except.ok allZeroMetrics ∧
    0 ≤ allZeroMetrics.bounce_rate ∧ allZeroMetrics.bounce_rate ≤ 100 ∧
    allZeroMetrics.engaged_sessions ≤ allZeroMetrics.sessions := by
  exact ⟨rfl, C9_invariant_or_failure.1 emptyFrame allZeroMetrics rfl⟩
